import Mathlib

/-!
Verification of the change-detection and fan-out delivery core of a
listing-notification bot (`mainbot.py`).

Python dictionaries are modelled as association lists (`List (k × v)`) with
`dictSet` (insert-or-overwrite, as dict assignment), `dictGet` (lookup) and
`dictDel` (key deletion).  Records are modelled as a structure whose fields
are the fields the code reads; the `locations` field is an `Option` because
the code reads it with `role['locations']`, which raises `KeyError` when the
key is absent (spec §3 allows absence).
-/

set_option maxHeartbeats 1000000
set_option maxRecDepth 8000

namespace MainBot


/-- Python dict assignment `m[k] = v`: overwrite the binding in place if the
key is present, otherwise append. -/
def dictSet {α β : Type} [DecidableEq α] : List (α × β) → α → β → List (α × β)
  | [], k, v => [(k, v)]
  | (k', v') :: rest, k, v =>
      if k' = k then (k, v) :: rest else (k', v') :: dictSet rest k v

/-- Python dict lookup `m.get(k)` / `m[k]`: the binding for `k`, if any. -/
def dictGet {α β : Type} [DecidableEq α] : List (α × β) → α → Option β
  | [], _ => none
  | (k', v') :: rest, k => if k' = k then some v' else dictGet rest k

/-- Python `del m[k]` (a no-op when the key is absent, used where the source
guards the deletion with a membership test). -/
def dictDel {α β : Type} [DecidableEq α] (m : List (α × β)) (k : α) : List (α × β) :=
  m.filter (fun p => p.1 ≠ k)

/-- One listing record (`mainbot.py` reads exactly these fields).
`locations = none` models a JSON object without the `locations` key. -/
structure Role where
  title : String
  company_name : String
  url : String
  locations : Option (List String)
  season : String
  sponsorship : String
  active : Bool
  is_visible : Bool
deriving DecidableEq, Repr

/-- The tuple key `(role['title'], role['company_name'])` used for the
old-roles lookup dictionary (mainbot.py line 309). -/
def role_tuple_key (r : Role) : String × String := (r.title, r.company_name)

/-- `old_roles_dict = {(role['title'], role['company_name']): role for role in old_data}`
(mainbot.py line 309).  A dict comprehension inserts in list order, so later
duplicates overwrite earlier ones. -/
def build_old_roles_dict (old_data : List Role) : List ((String × String) × Role) :=
  old_data.foldl (fun m r => dictSet m (role_tuple_key r) r) []

/-- One step of the classification loop of `check_for_new_roles`
(mainbot.py lines 311-321): the accumulator is `(new_roles, deactivated_roles)`,
appended to in loop order. -/
def classify_step (old_roles_dict : List ((String × String) × Role))
    (acc : List Role × List Role) (new_role : Role) : List Role × List Role :=
  match dictGet old_roles_dict (role_tuple_key new_role) with
  | some old_role =>
      if old_role.active && !new_role.active then (acc.1, acc.2 ++ [new_role]) else acc
  | none =>
      if new_role.is_visible && new_role.active then (acc.1 ++ [new_role], acc.2) else acc

/-- The diff computed by `check_for_new_roles` (mainbot.py lines 305-321):
`(new_roles, deactivated_roles)`. -/
def check_for_new_roles_diff (old_data new_data : List Role) : List Role × List Role :=
  new_data.foldl (classify_step (build_old_roles_dict old_data)) ([], [])

/-- Boolean predicate: `new_role` is classified `New`. -/
def isNewRole (old_roles_dict : List ((String × String) × Role)) (r : Role) : Bool :=
  (dictGet old_roles_dict (role_tuple_key r)).isNone && (r.is_visible && r.active)

/-- Boolean predicate: `new_role` is classified `Deactivated`. -/
def isDeactivatedRole (old_roles_dict : List ((String × String) × Role)) (r : Role) : Bool :=
  match dictGet old_roles_dict (role_tuple_key r) with
  | some old_role => old_role.active && !r.active
  | none => false

/-! ### Timestamps: `datetime.isoformat` / `datetime.fromisoformat` -/

/-- A `datetime.datetime` value at the precision the bot stores
(`datetime.now()` carries microseconds). -/
@[ext]
structure PyDateTime where
  year : Nat
  month : Nat
  day : Nat
  hour : Nat
  minute : Nat
  second : Nat
  microsecond : Nat
deriving DecidableEq, Repr

/-- The field invariants of `datetime.datetime` (MINYEAR = 1, MAXYEAR = 9999). -/
def PyDateTime.Valid (t : PyDateTime) : Prop :=
  1 ≤ t.year ∧ t.year ≤ 9999 ∧ 1 ≤ t.month ∧ t.month ≤ 12 ∧ 1 ≤ t.day ∧ t.day ≤ 31 ∧
    t.hour ≤ 23 ∧ t.minute ≤ 59 ∧ t.second ≤ 59 ∧ t.microsecond ≤ 999999

instance (t : PyDateTime) : Decidable t.Valid := by
  unfold PyDateTime.Valid
  infer_instance

/-- Zero-padded fixed-width decimal rendering (the `%04d`-style fields of
`isoformat`). -/
def padNum : Nat → Nat → List Char
  | 0, _ => []
  | w + 1, n => padNum w (n / 10) ++ [Nat.digitChar (n % 10)]

/-- Decimal digit-string parsing, as `int()` does on the fixed-width fields. -/
def parseNumVal (cs : List Char) : Nat :=
  cs.foldl (fun a c => a * 10 + (c.toNat - 48)) 0

/-- `datetime.isoformat()`: `YYYY-MM-DDTHH:MM:SS` with `.ffffff` appended
exactly when the microsecond field is nonzero. -/
def isoformat (t : PyDateTime) : String :=
  String.mk (padNum 4 t.year ++ '-' ::
    (padNum 2 t.month ++ '-' ::
      (padNum 2 t.day ++ 'T' ::
        (padNum 2 t.hour ++ ':' ::
          (padNum 2 t.minute ++ ':' ::
            (padNum 2 t.second ++
              (if t.microsecond = 0 then [] else '.' :: padNum 6 t.microsecond)))))))

/-- `datetime.fromisoformat` on the strings `isoformat` emits: positional
parse of the fixed-width fields. -/
def fromisoformat (s : String) : PyDateTime :=
  { year := parseNumVal (s.data.take 4)
  , month := parseNumVal ((s.data.drop 5).take 2)
  , day := parseNumVal ((s.data.drop 8).take 2)
  , hour := parseNumVal ((s.data.drop 11).take 2)
  , minute := parseNumVal ((s.data.drop 14).take 2)
  , second := parseNumVal ((s.data.drop 17).take 2)
  , microsecond := if s.data.length ≤ 19 then 0 else parseNumVal ((s.data.drop 20).take 6) }

/-! ### Message tracking store: save / load round-trip -/

/-- One delivery record kept in `message_tracking`
(mainbot.py lines 252-256): `{'channel_id': ..., 'message_id': ..., 'timestamp': datetime}`. -/
structure TrackedMsg where
  channel_id : String
  message_id : Nat
  timestamp : PyDateTime
deriving DecidableEq, Repr

/-- A delivery record as serialized to `message_tracking.json`
(timestamp as ISO-8601 text, mainbot.py line 381). -/
structure SavedMsg where
  channel_id : String
  message_id : Nat
  timestamp : String
deriving DecidableEq, Repr

/-- The in-memory tracking store: record key to ordered deliveries. -/
abbrev Tracking : Type := List (String × List TrackedMsg)

/-- `save_message_tracking` (mainbot.py lines 372-388): copy each delivery
with `timestamp.isoformat()` and dump the mapping. -/
def save_message_tracking (T : Tracking) : List (String × List SavedMsg) :=
  T.map (fun kv => (kv.1, kv.2.map (fun m => ⟨m.channel_id, m.message_id, isoformat m.timestamp⟩)))

/-- `load_message_tracking` (mainbot.py lines 390-407) applied at startup,
when the global store is empty: rebuild each entry with
`datetime.fromisoformat`. -/
def load_message_tracking (file : List (String × List SavedMsg)) : Tracking :=
  file.map (fun kv => (kv.1, kv.2.map (fun m => ⟨m.channel_id, m.message_id, fromisoformat m.timestamp⟩)))

/-! ### Message formatting -/

/-- `format_message` (mainbot.py lines 92-117).  Reading `role['locations']`
raises `KeyError` when the key is absent, so the function is modelled in
`Except`; `today` stands for `datetime.now().strftime('%B, %d')`.  The
location text is `', '.join(...)` when the list is truthy (non-empty), else
the placeholder. -/
def format_message (role : Role) (today : String) : Except String String :=
  match role.locations with
  | none => Except.error "KeyError: 'locations'"
  | some locs =>
      Except.ok
        (("\n>>> # " ++ role.company_name ++ " just posted a new internship!\n\n### Role:\n[" ++
            role.title ++ "](" ++ role.url ++ ")\n\n### Location:\n") ++
          (if locs.isEmpty then "Not specified" else String.intercalate ", " locs) ++
          ("\n\n### Season:\n" ++ role.season ++ "\n\n### Sponsorship: `" ++ role.sponsorship ++
            "`\n### Posted on: " ++ today ++
            "\nmade by the team @ [cvrve](https://www.cvrve.me/)\n"))

/-- `format_deactivation_message` (mainbot.py lines 119-137); total, it reads
no optional field. -/
def format_deactivation_message (role : Role) (today : String) : String :=
  "\n>>> # " ++ role.company_name ++
    " internship is no longer active\n\n### Role:\n~~[" ++ role.title ++
    "](about:blank)~~ (Link disabled - position closed)\n\n### Status: `Inactive`\n### Deactivated on: " ++
    today ++ "\nmade by the team @ [cvrve](https://www.cvrve.me/)\n"

/-- The `updated_message` template of `update_expired_role_messages`
(mainbot.py lines 152-167), given the already-read locations list. -/
def updated_closed_message (role : Role) (locs : List String) (today : String) : String :=
  "\n>>> # ❌ " ++ role.company_name ++
    " internship is now CLOSED\n\n### Role:\n~~[" ++ role.title ++
    "](about:blank)~~ (Link disabled - position closed)\n\n### Location:\n" ++
    (if locs.isEmpty then "Not specified" else String.intercalate ", " locs) ++
    "\n\n### Season:\n" ++ role.season ++
    "\n\n### Status: `🔴 CLOSED`\n### Closed on: " ++ today ++
    "\nmade by the team @ [cvrve](https://www.cvrve.me/)\n"

/-! ### Record keys and tracking-store operations -/

/-- The tracking record key `f"{role['company_name']}_{role['title']}"`
(mainbot.py lines 146 and 325). -/
def role_key (r : Role) : String := r.company_name ++ "_" ++ r.title

/-- The tracking append performed on a successful send when a role key is
given (mainbot.py lines 249-256): create the entry if absent, then append
the delivery descriptor. -/
def trackAppend (T : Tracking) (key ch : String) (mid : Nat) (now : PyDateTime) : Tracking :=
  match dictGet T key with
  | none => dictSet T key [⟨ch, mid, now⟩]
  | some l => dictSet T key (l ++ [⟨ch, mid, now⟩])

/-- The consult-and-delete performed by `update_expired_role_messages`
(mainbot.py lines 148-150, 169, 189): the tracked deliveries for the key
(empty when absent, in which case the store is untouched) together with the
store after `del message_tracking[role_key]`. -/
def consume_tracking (T : Tracking) (key : String) : List TrackedMsg × Tracking :=
  match dictGet T key with
  | none => ([], T)
  | some l => (l, dictDel T key)

/-- Collision inputs for C10: distinct (company_name, title) pairs whose
underscore-joined keys coincide. -/
def collideRole1 : Role :=
  { title := "C", company_name := "A_B", url := "u1", locations := some ["Remote"],
    season := "Summer", sponsorship := "Yes", active := true, is_visible := true }

def collideRole2 : Role :=
  { title := "B_C", company_name := "A", url := "u2", locations := some ["NYC"],
    season := "Summer", sponsorship := "No", active := true, is_visible := true }

def collideTime : PyDateTime := ⟨2025, 10, 12, 3, 4, 5, 0⟩

/-- The tracking store after recording one delivery for each of the two
colliding roles. -/
def collideTracking : Tracking :=
  trackAppend (trackAppend [] (role_key collideRole1) "111" 1 collideTime)
    (role_key collideRole2) "222" 2 collideTime

/-! ### Channel dispatcher: `send_message` failure state machine

`send_message` (mainbot.py lines 207-269) is modelled as a pure transition
on the module-level state, driven by an environment value describing what
the Discord client does on this call: whether `bot.get_channel` hits the
cache, the outcome of `bot.fetch_channel` on a miss, and the outcome of
`channel.send`. -/

/-- Outcome of `bot.fetch_channel` on a cache miss. -/
inductive ChFetchRes where
  | found
  | notFound
  | forbidden
  | otherError
deriving DecidableEq, Repr

/-- Outcome of `channel.send`. -/
inductive ChSendRes where
  | ok (message_id : Nat)
  | err
deriving DecidableEq, Repr

/-- The environment of one `send_message` call. -/
structure SendEnv where
  cached : Bool
  fetch : ChFetchRes
  send : ChSendRes
  now : PyDateTime
deriving DecidableEq, Repr

/-- How the channel resolves: a cache hit behaves like a successful fetch. -/
def effectiveFetch (e : SendEnv) : ChFetchRes :=
  if e.cached then ChFetchRes.found else e.fetch

/-- The module-level mutable state touched by `send_message`
(mainbot.py lines 57-59).  `forbidden_received` is a history variable, not
present in the source: it records the channels for which a
`discord.Forbidden` error was ever handled, so that the blacklist invariant
(spec §3, Channel Failure State) can be stated. -/
structure BotState where
  failed_channels : List String
  channel_failure_counts : List (String × Nat)
  message_tracking : Tracking
  forbidden_received : List String
deriving DecidableEq, Repr

/-- Python `set.add`. -/
def setAdd (s : List String) (c : String) : List String :=
  if c ∈ s then s else c :: s

/-- `channel_failure_counts.get(c, 0)`. -/
def countOf (st : BotState) (c : String) : Nat :=
  (dictGet st.channel_failure_counts c).getD 0

/-- The failure-count increment with threshold blacklisting repeated at
mainbot.py lines 230-232, 240-242 and 266-269. -/
def incFail (MAX : Nat) (st : BotState) (c : String) : BotState :=
  let n := (dictGet st.channel_failure_counts c).getD 0 + 1
  let st1 := { st with channel_failure_counts := dictSet st.channel_failure_counts c n }
  if MAX ≤ n then { st1 with failed_channels := setAdd st1.failed_channels c } else st1

/-- `send_message` (mainbot.py lines 207-269) as a state transition. -/
def send_message (MAX : Nat) (st : BotState) (_message : String) (channel_id : String)
    (rkey : Option String) (env : SendEnv) : BotState :=
  if channel_id ∈ st.failed_channels then st
  else
    match effectiveFetch env with
    | ChFetchRes.notFound => incFail MAX st channel_id
    | ChFetchRes.forbidden =>
        { st with failed_channels := setAdd st.failed_channels channel_id,
                  forbidden_received := setAdd st.forbidden_received channel_id }
    | ChFetchRes.otherError => incFail MAX st channel_id
    | ChFetchRes.found =>
        match env.send with
        | ChSendRes.err => incFail MAX st channel_id
        | ChSendRes.ok mid =>
            let st1 := match rkey with
              | some k =>
                  { st with message_tracking :=
                      trackAppend st.message_tracking k channel_id mid env.now }
              | none => st
            { st1 with channel_failure_counts := dictDel st1.channel_failure_counts channel_id }

def isOkSend : ChSendRes → Bool
  | ChSendRes.ok _ => true
  | ChSendRes.err => false

/-- The call counts as a failed send/fetch attempt (not a permission error). -/
def FailingEnv (e : SendEnv) : Prop :=
  effectiveFetch e = ChFetchRes.notFound ∨ effectiveFetch e = ChFetchRes.otherError ∨
    (effectiveFetch e = ChFetchRes.found ∧ e.send = ChSendRes.err)

instance (e : SendEnv) : Decidable (FailingEnv e) := by
  unfold FailingEnv
  infer_instance

/-- The call resolves the channel and the send succeeds. -/
def SuccessEnv (e : SendEnv) : Prop :=
  effectiveFetch e = ChFetchRes.found ∧ isOkSend e.send = true

instance (e : SendEnv) : Decidable (SuccessEnv e) := by
  unfold SuccessEnv
  infer_instance

/-- A sequence of `send_message` calls for one channel. -/
def runSends (MAX : Nat) (st : BotState) (msg c : String) (rkey : Option String)
    (envs : List SendEnv) : BotState :=
  envs.foldl (fun s e => send_message MAX s msg c rkey e) st

/-- Initial module state (all trackers empty). -/
def initBotState : BotState := ⟨[], [], [], []⟩

/-- The Channel Failure State invariant (spec §3): blacklisted iff the
failure count reached the threshold or a Forbidden error was received. -/
def FailInv (MAX : Nat) (st : BotState) : Prop :=
  ∀ c, c ∈ st.failed_channels ↔ (MAX ≤ countOf st c ∨ c ∈ st.forbidden_received)

/-- A fetch-not-found failure environment. -/
def failEnvNF : SendEnv := ⟨false, ChFetchRes.notFound, ChSendRes.err, collideTime⟩

/-- A fetch-other-error failure environment. -/
def failEnvOE : SendEnv := ⟨false, ChFetchRes.otherError, ChSendRes.err, collideTime⟩

/-- A send-exception failure environment (cache hit, send raises). -/
def failEnvSend : SendEnv := ⟨true, ChFetchRes.found, ChSendRes.err, collideTime⟩

/-- A successful send environment. -/
def succEnv : SendEnv := ⟨true, ChFetchRes.found, ChSendRes.ok 7, collideTime⟩

/-! ### Cycle trace model

`check_for_new_roles` (mainbot.py lines 287-343) is synchronous: it only
*schedules* coroutines with `bot.loop.create_task(...)` and then immediately
overwrites `previous_data.json`.  The scheduled tasks can first run after the
enclosing `on_ready` iteration reaches its next `await` — strictly after the
commit.  The model below produces the ordered event trace of one cycle: the
synchronous phase emits the commit event, after which the event loop runs
the scheduled tasks under asyncio's FIFO ready-queue discipline (each task
runs to its next `await`, then is re-queued; every awaited operation
completes successfully and immediately — one admissible execution of the
real system).

A task is a list of segments; a segment is the list of observable events
emitted between two suspension points.  `gatherSends` stands for a
`send_messages_to_channels` task, which expands into one `send_message` task
per channel when it first runs (as `asyncio.gather` does).  The loop is
implemented with a fuel parameter equal to the queue weight, which strictly
decreases at every step, so the fuel never runs out. -/

/-- Observable events of one poll cycle. -/
inductive Ev where
  | sendMsg (channel : String) (text : String)
  | editMsg (channel : String) (message_id : Nat) (text : String)
  | consumeKey (k : String)
  | commit (data : List Role)
deriving DecidableEq, Repr

/-- A task in the event-loop ready queue. -/
inductive CycTask where
  | plain (segs : List (List Ev))
  | gatherSends (channels : List String) (text : String) (rkey : Option String)
deriving DecidableEq, Repr

/-- The segments of one `send_message` coroutine on a cache-hit success: the
send event at the `await channel.send`, then the rate-limit sleep. -/
def sendSegs (ch text : String) : List (List Ev) := [[Ev.sendMsg ch text], []]

def taskWeight : CycTask → Nat
  | CycTask.plain segs => segs.length + 1
  | CycTask.gatherSends chs _ _ => 3 * chs.length + 2

def queueWeight (q : List CycTask) : Nat := (q.map taskWeight).sum

/-- FIFO round-robin event loop; the fuel bounds the number of steps. -/
def runLoopF : Nat → List CycTask → List Ev
  | 0, _ => []
  | _ + 1, [] => []
  | fuel + 1, CycTask.plain [] :: rest => runLoopF fuel rest
  | fuel + 1, CycTask.plain (seg :: segs) :: rest =>
      seg ++ runLoopF fuel (rest ++ [CycTask.plain segs])
  | fuel + 1, CycTask.gatherSends chs text _ :: rest =>
      runLoopF fuel (rest ++ chs.map (fun c => CycTask.plain (sendSegs c text)))

/-- Run the queue to completion (`queueWeight` fuel always suffices: every
step strictly decreases the total weight). -/
def runLoop (q : List CycTask) : List Ev := runLoopF (queueWeight q) q

/-- The segments of one `update_expired_role_messages` task
(mainbot.py lines 139-190), channel handles taken from cache and every fetch
and edit succeeding: nothing when the key is untracked (early return), and
nothing when `locations` is absent (the `updated_message` f-string raises
`KeyError` before any edit — the task dies); otherwise, per tracked message,
a suspension at `fetch_message` then the edit, and after the last edit the
deletion of the tracking entry. -/
def update_expired_segs (r : Role) (T : Tracking) (today : String) : List (List Ev) :=
  match dictGet T (role_key r) with
  | none => [[]]
  | some msgs =>
      match r.locations with
      | none => [[]]
      | some locs =>
          (msgs.flatMap (fun m =>
            [[], [Ev.editMsg m.channel_id m.message_id (updated_closed_message r locs today)]]))
            ++ [[Ev.consumeKey (role_key r)]]

/-- The tasks created for the new roles (mainbot.py lines 324-327):
`format_message` runs synchronously, so its `KeyError` aborts the cycle. -/
def formatNewRoleTasks (new_roles : List Role) (chs : List String) (today : String) :
    Except String (List CycTask) :=
  match new_roles with
  | [] => Except.ok []
  | r :: rest =>
      match format_message r today with
      | Except.error e => Except.error e
      | Except.ok msg =>
          match formatNewRoleTasks rest chs today with
          | Except.error e => Except.error e
          | Except.ok ts => Except.ok (CycTask.gatherSends chs msg (some (role_key r)) :: ts)

/-- The tasks created per deactivated role (mainbot.py lines 330-335): first
the update task, then the deactivation-broadcast task. -/
def deactTasks (ds : List Role) (T : Tracking) (chs : List String) (today : String) :
    List CycTask :=
  ds.flatMap (fun r =>
    [CycTask.plain (update_expired_segs r T today),
     CycTask.gatherSends chs (format_deactivation_message r today) none])

/-- All tasks scheduled by one run of `check_for_new_roles`, in creation
order (`chs` is the configured channel set with blacklisted channels already
removed, as `send_messages_to_channels` filters them). -/
def check_for_new_roles_tasks (old_data new_data : List Role) (T : Tracking)
    (chs : List String) (today : String) : Except String (List CycTask) :=
  match formatNewRoleTasks (check_for_new_roles_diff old_data new_data).1 chs today with
  | Except.error e => Except.error e
  | Except.ok nts =>
      Except.ok (nts ++ deactTasks (check_for_new_roles_diff old_data new_data).2 T chs today)

/-- The full event trace of one cycle: the synchronous phase creates the
tasks and commits the snapshot (mainbot.py lines 338-340), and only then does
the event loop run the scheduled dispatch tasks. -/
def check_for_new_roles_trace (old_data new_data : List Role) (T : Tracking)
    (chs : List String) (today : String) : Except String (List Ev) :=
  match check_for_new_roles_tasks old_data new_data T chs today with
  | Except.error e => Except.error e
  | Except.ok tasks => Except.ok (Ev.commit new_data :: runLoop tasks)

def traceOf (x : Except String (List Ev)) : List Ev := x.toOption.getD []

def tasksOf (x : Except String (List CycTask)) : List CycTask := x.toOption.getD []

def isDispatchEv : Ev → Bool
  | Ev.sendMsg _ _ => true
  | Ev.editMsg _ _ _ => true
  | _ => false

def isCommitEv : Ev → Bool
  | Ev.commit _ => true
  | _ => false

def isEditEv : Ev → Bool
  | Ev.editMsg _ _ _ => true
  | _ => false

def isConsumeOf (k : String) : Ev → Bool
  | Ev.consumeKey k' => k' == k
  | _ => false

def isSendOfText (btxt : String) : Ev → Bool
  | Ev.sendMsg _ t => t == btxt
  | _ => false

/-- C1 as stated: in a cycle trace, the commit comes after every dispatch
(send or edit) event. -/
def commitAfterAllDispatches (tr : List Ev) : Prop :=
  ∀ i j : Nat, (tr[i]?).any isCommitEv = true → (tr[j]?).any isDispatchEv = true → j < i

/-- C7 as stated: for a deactivated record with key `k` and closure-broadcast
text `btxt`, every consume/edit event precedes every broadcast send. -/
def consumeEditsBeforeBroadcast (tr : List Ev) (k btxt : String) : Prop :=
  ∀ i j : Nat, (tr[i]?).any (fun e => isEditEv e || isConsumeOf k e) = true →
    (tr[j]?).any (isSendOfText btxt) = true → i < j

/-- A sample new role (visible and active, locations present). -/
def sampleRole : Role :=
  { title := "Software Engineer Intern", company_name := "Test Company",
    url := "https://example.com/job", locations := some ["New York", "Remote"],
    season := "Summer 2025", sponsorship := "Available", active := true, is_visible := true }

def acmeActive : Role :=
  { title := "Intern", company_name := "Acme", url := "https://a.example/j",
    locations := some ["Remote"], season := "Summer 2025", sponsorship := "Other",
    active := true, is_visible := true }

def acmeInactive : Role := { acmeActive with active := false }

/-- One tracked delivery for the Acme role. -/
def acmeTracking : Tracking := [("Acme_Intern", [⟨"123", 99, collideTime⟩])]

/-! ### Orchestrator loop (C2) -/

/-- Outcome of `clone_or_update_repo(); read_json()` — obtaining the current
dataset, or an exception. -/
inductive FetchOutcome where
  | ok (data : List Role)
  | fail (e : String)
deriving DecidableEq, Repr

/-- One run of `check_for_new_roles` at the durable-state level: the fetch
either fails (the exception propagates, nothing is written) or yields the
new dataset, which is committed after the dispatch tasks are created; a
`format_message` KeyError also propagates before the commit.  The returned
value is the committed snapshot. -/
def check_for_new_roles_cycle (prev : Option (List Role)) (fetch : FetchOutcome)
    (T : Tracking) (chs : List String) (today : String) : Except String (List Role) :=
  match fetch with
  | FetchOutcome.fail e => Except.error e
  | FetchOutcome.ok new_data =>
      match check_for_new_roles_tasks (prev.getD []) new_data T chs today with
      | Except.error e => Except.error e
      | Except.ok _ => Except.ok new_data

/-- The `while True: schedule.run_pending(); await asyncio.sleep(1)` loop of
`on_ready` (mainbot.py lines 345-354), fed one fetch outcome per scheduled
tick.  `schedule.run_pending()` does not catch job exceptions, so an
exception from `check_for_new_roles` terminates the loop: the result is then
`Except.error` carrying the exception and the snapshot at that moment. -/
def on_ready_loop (T : Tracking) (chs : List String) (today : String) :
    Option (List Role) → List FetchOutcome →
      Except (String × Option (List Role)) (Option (List Role))
  | prev, [] => Except.ok prev
  | prev, f :: rest =>
      match check_for_new_roles_cycle prev f T chs today with
      | Except.error e => Except.error (e, prev)
      | Except.ok nd => on_ready_loop T chs today (some nd) rest

/-- C2 as stated (the crash-freedom part): a tick whose fetch fails leaves
the orchestrator loop running (it returns normally). -/
def fetchFailureIsSurvived : Prop :=
  ∀ (prev : Option (List Role)) (e : String) (T : Tracking) (chs : List String)
    (today : String),
    (on_ready_loop T chs today prev [FetchOutcome.fail e]).isOk = true

/-! ### Theorems -/

/-! ### Dictionary lemmas -/

theorem dictGet_dictSet {α β : Type} [DecidableEq α] (m : List (α × β)) (k k' : α) (v : β) :
    dictGet (dictSet m k v) k' = if k = k' then some v else dictGet m k' := by
  induction m with
  | nil => simp [dictSet, dictGet]
  | cons p rest ih =>
      obtain ⟨a, b⟩ := p
      by_cases hak : a = k
      · subst hak
        by_cases hkk : a = k'
        · simp [dictSet, dictGet, hkk]
        · simp [dictSet, dictGet, hkk]
      · by_cases hak' : a = k'
        · subst hak'
          have : ¬ k = a := fun h => hak h.symm
          simp [dictSet, dictGet, hak, this]
        · simp [dictSet, dictGet, hak, hak', ih]

theorem dictGet_dictDel_self {α β : Type} [DecidableEq α] (m : List (α × β)) (k : α) :
    dictGet (dictDel m k) k = none := by
  induction m with
  | nil => simp [dictDel, dictGet]
  | cons p rest ih =>
      obtain ⟨a, b⟩ := p
      by_cases hak : a = k
      · simpa [dictDel, List.filter, hak] using ih
      · simpa [dictDel, List.filter, hak, dictGet] using ih

theorem dictGet_dictDel_ne {α β : Type} [DecidableEq α] (m : List (α × β)) (k k' : α)
    (h : k' ≠ k) : dictGet (dictDel m k) k' = dictGet m k' := by
  induction m with
  | nil => simp [dictDel, dictGet]
  | cons p rest ih =>
      obtain ⟨a, b⟩ := p
      by_cases hak : a = k
      · have ha' : ¬ a = k' := fun hh => h (hh ▸ hak)
        simpa [dictDel, List.filter, dictGet, hak, ha', Ne.symm h] using ih
      · by_cases hak' : a = k'
        · simp [dictDel, List.filter, dictGet, hak, hak', h]
        · simpa [dictDel, List.filter, dictGet, hak, hak'] using ih

/-- A key found in a fold-built dictionary was either in the seed or was
inserted from an element of the list (with a matching key). -/
theorem dictGet_foldl_dictSet_some {α : Type} [DecidableEq α] (key : Role → α)
    (l : List Role) (m : List (α × Role)) (k : α) (v : Role)
    (h : dictGet (l.foldl (fun m r => dictSet m (key r) r) m) k = some v) :
    dictGet m k = some v ∨ (v ∈ l ∧ key v = k) := by
  induction l generalizing m with
  | nil => exact Or.inl h
  | cons r rest ih =>
      rcases ih _ h with h' | h'
      · rw [dictGet_dictSet] at h'
        by_cases hk : key r = k
        · simp [hk] at h'
          subst h'
          exact Or.inr ⟨List.mem_cons_self _ _, hk⟩
        · simp [hk] at h'
          exact Or.inl h'
      · exact Or.inr ⟨List.mem_cons_of_mem _ h'.1, h'.2⟩

/-- A key is absent from a fold-built dictionary iff it is absent from the
seed and no list element carries it. -/
theorem dictGet_foldl_dictSet_none {α : Type} [DecidableEq α] (key : Role → α)
    (l : List Role) (m : List (α × Role)) (k : α) :
    dictGet (l.foldl (fun m r => dictSet m (key r) r) m) k = none ↔
      (dictGet m k = none ∧ ∀ r ∈ l, key r ≠ k) := by
  induction l generalizing m with
  | nil => simp
  | cons r rest ih =>
      constructor
      · intro h
        rcases (ih _).mp h with ⟨h1, h2⟩
        rw [dictGet_dictSet] at h1
        by_cases hk : key r = k
        · simp [hk] at h1
        · simp [hk] at h1
          refine ⟨h1, ?_⟩
          intro r' hr'
          rcases List.mem_cons.mp hr' with rfl | hr'
          · exact hk
          · exact h2 r' hr'
      · rintro ⟨h1, h2⟩
        refine (ih _).mpr ⟨?_, fun r' hr' => h2 r' (List.mem_cons_of_mem _ hr')⟩
        rw [dictGet_dictSet]
        have : key r ≠ k := h2 r (List.mem_cons_self _ _)
        simp [this, h1]

/-- The classification fold is the pair of filters by the two predicates
(appended after the seed accumulator), preserving `new_data` order. -/
theorem check_diff_foldl_eq_filter (d : List ((String × String) × Role))
    (l : List Role) (acc : List Role × List Role) :
    l.foldl (classify_step d) acc =
      (acc.1 ++ l.filter (isNewRole d), acc.2 ++ l.filter (isDeactivatedRole d)) := by
  induction l generalizing acc with
  | nil => simp
  | cons r rest ih =>
      rw [List.foldl_cons, ih]
      unfold classify_step isNewRole isDeactivatedRole
      rcases hd : dictGet d (role_tuple_key r) with _ | old_role
      · by_cases hv : r.is_visible && r.active
        · simp [hd, hv, List.filter_cons]
        · simp [hd, hv, List.filter_cons]
      · by_cases ha : old_role.active && !r.active
        · simp [hd, ha, List.filter_cons]
        · simp [hd, ha, List.filter_cons]

theorem check_diff_eq_filter (old_data new_data : List Role) :
    check_for_new_roles_diff old_data new_data =
      (new_data.filter (isNewRole (build_old_roles_dict old_data)),
       new_data.filter (isDeactivatedRole (build_old_roles_dict old_data))) := by
  unfold check_for_new_roles_diff
  rw [check_diff_foldl_eq_filter]
  simp

/-! ### C3 and C9 -/

/-- C3: for every pair of snapshots (P, C), every record classified `New`
appears in C, no record of P shares its (company_name, title) key, and it is
`active` and `is_visible` in C; every record classified `Deactivated` appears
in C with `active = false`, and some record of P shares its key with
`active = true`. -/
theorem c3_diff_classification (P C : List Role) :
    (∀ r ∈ (check_for_new_roles_diff P C).1,
        r ∈ C ∧ (∀ p ∈ P, ¬(p.company_name = r.company_name ∧ p.title = r.title)) ∧
          r.active = true ∧ r.is_visible = true) ∧
    (∀ r ∈ (check_for_new_roles_diff P C).2,
        r ∈ C ∧ (∃ p ∈ P, p.company_name = r.company_name ∧ p.title = r.title ∧
          p.active = true) ∧ r.active = false) := by
  rw [check_diff_eq_filter]
  constructor
  · intro r hr
    simp only [List.mem_filter] at hr
    obtain ⟨hrC, hp⟩ := hr
    unfold isNewRole at hp
    simp only [Bool.and_eq_true, Option.isNone_iff_eq_none] at hp
    obtain ⟨hnone, hvis, hact⟩ := hp
    have habs := (dictGet_foldl_dictSet_none role_tuple_key P [] (role_tuple_key r)).mp hnone
    refine ⟨hrC, ?_, hact, hvis⟩
    intro p hp ⟨hc, ht⟩
    exact habs.2 p hp (by simp [role_tuple_key, ht, hc])
  · intro r hr
    simp only [List.mem_filter] at hr
    obtain ⟨hrC, hp⟩ := hr
    unfold isDeactivatedRole at hp
    rcases hd : dictGet (build_old_roles_dict P) (role_tuple_key r) with _ | old_role
    · rw [hd] at hp; simp at hp
    · rw [hd] at hp
      simp only [Bool.and_eq_true, Bool.not_eq_true'] at hp
      obtain ⟨hoact, hract⟩ := hp
      rcases dictGet_foldl_dictSet_some role_tuple_key P [] _ _ hd with h' | ⟨hmem, hkey⟩
      · simp [dictGet] at h'
      · have hkey' : old_role.title = r.title ∧ old_role.company_name = r.company_name := by
          have := congrArg Prod.fst hkey
          have h2 := congrArg Prod.snd hkey
          exact ⟨this, h2⟩
        exact ⟨hrC, ⟨old_role, hmem, hkey'.2, hkey'.1, hoact⟩, hract⟩

/-- Every role of a snapshot with pairwise-distinct keys looks itself up in
the dictionary built from that snapshot. -/
theorem dictGet_build_self (S : List Role)
    (h : S.Pairwise (fun a b => role_tuple_key a ≠ role_tuple_key b)) (r : Role)
    (hr : r ∈ S) : dictGet (build_old_roles_dict S) (role_tuple_key r) = some r := by
  rcases hres : dictGet (build_old_roles_dict S) (role_tuple_key r) with _ | v
  · exfalso
    have := (dictGet_foldl_dictSet_none role_tuple_key S [] (role_tuple_key r)).mp hres
    exact this.2 r hr rfl
  · rcases dictGet_foldl_dictSet_some role_tuple_key S [] _ _ hres with h' | ⟨hmem, hkey⟩
    · simp [dictGet] at h'
    · by_cases hvr : v = r
      · rw [hvr]
      · exfalso
        exact h.forall (fun a b hab => fun h' => hab h'.symm) hmem hr hvr hkey

/-- C9: diffing a snapshot (with the data model's unique (company_name, title)
keys, spec §3) against itself yields empty New and Deactivated lists. -/
theorem c9_diff_self_empty (S : List Role)
    (h : S.Pairwise (fun a b => role_tuple_key a ≠ role_tuple_key b)) :
    check_for_new_roles_diff S S = ([], []) := by
  rw [check_diff_eq_filter]
  have hnew : ∀ r ∈ S, ¬ (isNewRole (build_old_roles_dict S) r = true) := by
    intro r hr
    unfold isNewRole
    simp [dictGet_build_self S h r hr]
  have hdeact : ∀ r ∈ S, ¬ (isDeactivatedRole (build_old_roles_dict S) r = true) := by
    intro r hr
    unfold isDeactivatedRole
    rw [dictGet_build_self S h r hr]
    cases hra : r.active <;> simp [hra]
  rw [List.filter_eq_nil_iff.mpr hnew, List.filter_eq_nil_iff.mpr hdeact]

theorem padNum_length (w n : Nat) : (padNum w n).length = w := by
  induction w generalizing n with
  | zero => simp [padNum]
  | succ w ih => simp [padNum, ih]

theorem digitChar_toNat (d : Nat) (h : d < 10) : (Nat.digitChar d).toNat = 48 + d := by
  interval_cases d <;> rfl

theorem foldl_padNum (w : Nat) : ∀ n a, n < 10 ^ w →
    (padNum w n).foldl (fun a c => a * 10 + (c.toNat - 48)) a = a * 10 ^ w + n := by
  induction w with
  | zero =>
      intro n a h
      simp [padNum]
      omega
  | succ w ih =>
      intro n a h
      have hdiv : n / 10 < 10 ^ w := by
        have h10 : n < 10 ^ w * 10 := by rw [pow_succ] at h; exact h
        exact (Nat.div_lt_iff_lt_mul (by norm_num)).mpr h10
      rw [padNum, List.foldl_append, ih _ _ hdiv]
      simp only [List.foldl_cons, List.foldl_nil]
      rw [digitChar_toNat _ (Nat.mod_lt n (by norm_num)), pow_succ, ← mul_assoc]
      have key : ∀ Y : Nat, (Y + n / 10) * 10 + (48 + n % 10 - 48) = Y * 10 + n := by
        intro Y
        omega
      have := key (a * 10 ^ w)
      rw [Nat.add_mul] at this ⊢
      omega

theorem parseNumVal_padNum (w n : Nat) (h : n < 10 ^ w) : parseNumVal (padNum w n) = n := by
  unfold parseNumVal
  rw [foldl_padNum w n 0 h]
  simp

theorem drop_append_cons {l₁ : List Char} {c : Char} {l₂ : List Char} {n : Nat}
    (h : l₁.length = n) : (l₁ ++ c :: l₂).drop (n + 1) = l₂ := by
  have heq : l₁ ++ c :: l₂ = (l₁ ++ [c]) ++ l₂ := by simp
  rw [heq]
  exact List.drop_left' (by simp [h])

/-- Round-trip of the timestamp codec on every valid `datetime` value. -/
theorem fromisoformat_isoformat (t : PyDateTime) (h : t.Valid) :
    fromisoformat (isoformat t) = t := by
  obtain ⟨hy1, hy2, hmo1, hmo2, hd1, hd2, hh2, hmi2, hs2, hus2⟩ := h
  set p4 := padNum 4 t.year with hp4
  set pmo := padNum 2 t.month with hpmo
  set pd := padNum 2 t.day with hpd
  set ph := padNum 2 t.hour with hph
  set pmi := padNum 2 t.minute with hpmi
  set ps := padNum 2 t.second with hps
  set tail := (if t.microsecond = 0 then ([] : List Char) else '.' :: padNum 6 t.microsecond)
    with htail
  have hcs : (isoformat t).data =
      p4 ++ '-' :: (pmo ++ '-' :: (pd ++ 'T' :: (ph ++ ':' :: (pmi ++ ':' :: (ps ++ tail))))) :=
    rfl
  have hd5 : (isoformat t).data.drop 5 =
      pmo ++ '-' :: (pd ++ 'T' :: (ph ++ ':' :: (pmi ++ ':' :: (ps ++ tail)))) := by
    rw [hcs]
    exact drop_append_cons (by simp [hp4, padNum_length])
  have hd8 : (isoformat t).data.drop 8 =
      pd ++ 'T' :: (ph ++ ':' :: (pmi ++ ':' :: (ps ++ tail))) := by
    have : (isoformat t).data.drop 8 = ((isoformat t).data.drop 5).drop 3 := by
      rw [List.drop_drop]
    rw [this, hd5]
    exact drop_append_cons (by simp [hpmo, padNum_length])
  have hd11 : (isoformat t).data.drop 11 = ph ++ ':' :: (pmi ++ ':' :: (ps ++ tail)) := by
    have : (isoformat t).data.drop 11 = ((isoformat t).data.drop 8).drop 3 := by
      rw [List.drop_drop]
    rw [this, hd8]
    exact drop_append_cons (by simp [hpd, padNum_length])
  have hd14 : (isoformat t).data.drop 14 = pmi ++ ':' :: (ps ++ tail) := by
    have : (isoformat t).data.drop 14 = ((isoformat t).data.drop 11).drop 3 := by
      rw [List.drop_drop]
    rw [this, hd11]
    exact drop_append_cons (by simp [hph, padNum_length])
  have hd17 : (isoformat t).data.drop 17 = ps ++ tail := by
    have : (isoformat t).data.drop 17 = ((isoformat t).data.drop 14).drop 3 := by
      rw [List.drop_drop]
    rw [this, hd14]
    exact drop_append_cons (by simp [hpmi, padNum_length])
  have hlen : (isoformat t).data.length = 19 + tail.length := by
    rw [hcs]
    simp [hp4, hpmo, hpd, hph, hpmi, hps, padNum_length]
    omega
  have hyear : parseNumVal ((isoformat t).data.take 4) = t.year := by
    rw [hcs, List.take_left' (by simp [hp4, padNum_length])]
    exact parseNumVal_padNum 4 t.year (by omega)
  have hmonth : parseNumVal (((isoformat t).data.drop 5).take 2) = t.month := by
    rw [hd5, List.take_left' (by simp [hpmo, padNum_length])]
    exact parseNumVal_padNum 2 t.month (by omega)
  have hday : parseNumVal (((isoformat t).data.drop 8).take 2) = t.day := by
    rw [hd8, List.take_left' (by simp [hpd, padNum_length])]
    exact parseNumVal_padNum 2 t.day (by omega)
  have hhour : parseNumVal (((isoformat t).data.drop 11).take 2) = t.hour := by
    rw [hd11, List.take_left' (by simp [hph, padNum_length])]
    exact parseNumVal_padNum 2 t.hour (by omega)
  have hminute : parseNumVal (((isoformat t).data.drop 14).take 2) = t.minute := by
    rw [hd14, List.take_left' (by simp [hpmi, padNum_length])]
    exact parseNumVal_padNum 2 t.minute (by omega)
  have hsecond : parseNumVal (((isoformat t).data.drop 17).take 2) = t.second := by
    rw [hd17, List.take_left' (by simp [hps, padNum_length])]
    exact parseNumVal_padNum 2 t.second (by omega)
  have hmicro : (if (isoformat t).data.length ≤ 19 then 0
      else parseNumVal (((isoformat t).data.drop 20).take 6)) = t.microsecond := by
    by_cases hz : t.microsecond = 0
    · have : tail = [] := by simp [htail, hz]
      rw [if_pos (by rw [hlen, this]; simp), hz]
    · have htl : tail = '.' :: padNum 6 t.microsecond := by simp [htail, hz]
      have hlen26 : (isoformat t).data.length = 26 := by
        rw [hlen, htl]
        simp [padNum_length]
      rw [if_neg (by rw [hlen26]; omega)]
      have hd20 : (isoformat t).data.drop 20 = padNum 6 t.microsecond := by
        have : (isoformat t).data.drop 20 = ((isoformat t).data.drop 17).drop 3 := by
          rw [List.drop_drop]
        rw [this, hd17, htl]
        exact drop_append_cons (by simp [hps, padNum_length])
      rw [hd20, List.take_of_length_le (by simp [padNum_length])]
      exact parseNumVal_padNum 6 t.microsecond (by omega)
  exact PyDateTime.ext hyear hmonth hday hhour hminute hsecond hmicro

/-- C6: saving the tracking store and loading it back restores it exactly
(timestamps included, beyond second precision), for every store whose
timestamps are valid `datetime` values. -/
theorem c6_tracking_roundtrip (T : Tracking)
    (h : ∀ kv ∈ T, ∀ m ∈ kv.2, m.timestamp.Valid) :
    load_message_tracking (save_message_tracking T) = T := by
  unfold load_message_tracking save_message_tracking
  rw [List.map_map]
  conv_rhs => rw [← List.map_id T]
  apply List.map_congr_left
  intro kv hkv
  simp only [Function.comp_apply, List.map_map, id_eq]
  have hmsgs : kv.2.map
      ((fun m => (⟨m.channel_id, m.message_id, fromisoformat m.timestamp⟩ : TrackedMsg)) ∘
        (fun m => (⟨m.channel_id, m.message_id, isoformat m.timestamp⟩ : SavedMsg))) = kv.2 := by
    conv_rhs => rw [← List.map_id kv.2]
    apply List.map_congr_left
    intro m hm
    simp only [Function.comp_apply, id_eq]
    rw [fromisoformat_isoformat _ (h kv hkv m hm)]
  rw [hmsgs]

/-! ### C8 and C10 -/

/-- C8 (amended): for every record whose `locations` value is present and
empty, rendering succeeds and the text contains the literal placeholder
"Not specified" in place of the location list.  (A record with the key
absent instead raises `KeyError`; see the counterexample.) -/
theorem c8_empty_locations_placeholder (role : Role) (today : String)
    (h : role.locations = some []) :
    ∃ p q, format_message role today = Except.ok (p ++ "Not specified" ++ q) := by
  refine ⟨"\n>>> # " ++ role.company_name ++ " just posted a new internship!\n\n### Role:\n[" ++
      role.title ++ "](" ++ role.url ++ ")\n\n### Location:\n",
    "\n\n### Season:\n" ++ role.season ++ "\n\n### Sponsorship: `" ++ role.sponsorship ++
      "`\n### Posted on: " ++ today ++ "\nmade by the team @ [cvrve](https://www.cvrve.me/)\n", ?_⟩
  rw [format_message, h]
  rfl

/-- Witness for C8 at a concrete record with `locations = []`. -/
theorem c8_empty_locations_placeholder_witness :
    ∃ p q, format_message
        { title := "Intern", company_name := "Acme", url := "https://a.example/j",
          locations := some [], season := "Summer 2025", sponsorship := "Other",
          active := true, is_visible := true } "October, 12" =
      Except.ok (p ++ "Not specified" ++ q) :=
  c8_empty_locations_placeholder _ "October, 12" rfl

/-- C8 counterexample: a record with the `locations` key absent does not
render at all — `role['locations']` raises `KeyError` — contradicting the
claim that rendering succeeds when `locations` is absent. -/
theorem c8_absent_locations_counterexample :
    format_message
        { title := "Intern", company_name := "Acme", url := "https://a.example/j",
          locations := none, season := "Summer 2025", sponsorship := "Other",
          active := true, is_visible := true } "October, 12" =
      Except.error "KeyError: 'locations'" ∧
    (format_message
        { title := "Intern", company_name := "Acme", url := "https://a.example/j",
          locations := none, season := "Summer 2025", sponsorship := "Other",
          active := true, is_visible := true } "October, 12").isOk = false :=
  ⟨rfl, rfl⟩

/-- C10: the record key `f"{company_name}_{title}"` is not injective: the two
concrete records differ in (company_name, title) yet share the key, their
deliveries land in one shared tracking entry, and consuming either role's key
returns both deliveries and deletes them together. -/
theorem c10_role_key_collision :
    role_key collideRole1 = role_key collideRole2 ∧
    ¬(collideRole1.company_name = collideRole2.company_name ∧
        collideRole1.title = collideRole2.title) ∧
    collideTracking = [("A_B_C", [⟨"111", 1, collideTime⟩, ⟨"222", 2, collideTime⟩])] ∧
    consume_tracking collideTracking (role_key collideRole1) =
      ([⟨"111", 1, collideTime⟩, ⟨"222", 2, collideTime⟩], []) ∧
    consume_tracking collideTracking (role_key collideRole2) =
      ([⟨"111", 1, collideTime⟩, ⟨"222", 2, collideTime⟩], []) := by
  refine ⟨rfl, ?_, ?_, ?_, ?_⟩
  · decide
  · rfl
  · rfl
  · rfl

/-! ### Lemmas about the dispatcher state machine -/

theorem mem_setAdd (s : List String) (c a : String) :
    a ∈ setAdd s c ↔ (a = c ∨ a ∈ s) := by
  unfold setAdd
  by_cases h : c ∈ s
  · simp only [if_pos h]
    constructor
    · exact Or.inr
    · rintro (rfl | ha)
      · exact h
      · exact ha
  · simp [if_neg h]

theorem countOf_incFail_self (MAX : Nat) (st : BotState) (c : String) :
    countOf (incFail MAX st c) c = countOf st c + 1 := by
  unfold incFail countOf
  by_cases hM : MAX ≤ (dictGet st.channel_failure_counts c).getD 0 + 1 <;>
    simp [hM, dictGet_dictSet]

theorem countOf_incFail_ne (MAX : Nat) (st : BotState) (c a : String) (h : a ≠ c) :
    countOf (incFail MAX st c) a = countOf st a := by
  have hca : c ≠ a := Ne.symm h
  unfold incFail countOf
  by_cases hM : MAX ≤ (dictGet st.channel_failure_counts c).getD 0 + 1 <;>
    simp [hM, dictGet_dictSet, hca]

theorem incFail_failed_mem (MAX : Nat) (st : BotState) (c a : String) :
    a ∈ (incFail MAX st c).failed_channels ↔
      (a ∈ st.failed_channels ∨ (a = c ∧ MAX ≤ countOf st c + 1)) := by
  unfold incFail countOf
  by_cases hM : MAX ≤ (dictGet st.channel_failure_counts c).getD 0 + 1
  · simp [hM, mem_setAdd]
    tauto
  · simp [hM]

theorem incFail_forbidden_received (MAX : Nat) (st : BotState) (c : String) :
    (incFail MAX st c).forbidden_received = st.forbidden_received := by
  unfold incFail
  by_cases hM : MAX ≤ (dictGet st.channel_failure_counts c).getD 0 + 1 <;> simp [hM]

theorem send_message_skip (MAX : Nat) (st : BotState) (m c : String) (rk : Option String)
    (e : SendEnv) (h : c ∈ st.failed_channels) : send_message MAX st m c rk e = st := by
  simp [send_message, h]

theorem send_message_failing (MAX : Nat) (st : BotState) (m c : String) (rk : Option String)
    (e : SendEnv) (h : FailingEnv e) (hn : c ∉ st.failed_channels) :
    send_message MAX st m c rk e = incFail MAX st c := by
  rcases h with h | h | ⟨h, hs⟩
  · simp [send_message, hn, h]
  · simp [send_message, hn, h]
  · simp [send_message, hn, h, hs]

theorem send_message_forbidden (MAX : Nat) (st : BotState) (m c : String) (rk : Option String)
    (e : SendEnv) (h : effectiveFetch e = ChFetchRes.forbidden) (hn : c ∉ st.failed_channels) :
    (send_message MAX st m c rk e).failed_channels = setAdd st.failed_channels c ∧
    (send_message MAX st m c rk e).forbidden_received = setAdd st.forbidden_received c ∧
    (send_message MAX st m c rk e).channel_failure_counts = st.channel_failure_counts := by
  refine ⟨?_, ?_, ?_⟩ <;> simp [send_message, hn, h]

theorem send_message_success_state (MAX : Nat) (st : BotState) (m c : String) (rk : Option String)
    (e : SendEnv) (h : SuccessEnv e) (hn : c ∉ st.failed_channels) :
    (send_message MAX st m c rk e).failed_channels = st.failed_channels ∧
    (send_message MAX st m c rk e).forbidden_received = st.forbidden_received ∧
    (send_message MAX st m c rk e).channel_failure_counts =
      dictDel st.channel_failure_counts c := by
  obtain ⟨hf, hs⟩ := h
  cases hsend : e.send with
  | err => rw [hsend] at hs; simp [isOkSend] at hs
  | ok mid => cases rk <;> simp [send_message, hn, hf, hsend]

theorem countOf_success_self (MAX : Nat) (st : BotState) (m c : String) (rk : Option String)
    (e : SendEnv) (h : SuccessEnv e) (hn : c ∉ st.failed_channels) :
    countOf (send_message MAX st m c rk e) c = 0 := by
  unfold countOf
  rw [(send_message_success_state MAX st m c rk e h hn).2.2, dictGet_dictDel_self]
  rfl

theorem countOf_success_ne (MAX : Nat) (st : BotState) (m c a : String) (rk : Option String)
    (e : SendEnv) (h : SuccessEnv e) (hn : c ∉ st.failed_channels) (ha : a ≠ c) :
    countOf (send_message MAX st m c rk e) a = countOf st a := by
  unfold countOf
  rw [(send_message_success_state MAX st m c rk e h hn).2.2, dictGet_dictDel_ne _ _ _ ha]

theorem take_append_le {α : Type} {l₁ l₂ : List α} {n : Nat} (h : n ≤ l₁.length) :
    (l₁ ++ l₂).take n = l₁.take n := by
  rw [List.take_append_eq_append_take, Nat.sub_eq_zero_of_le h]
  simp

theorem runSends_append (MAX : Nat) (st : BotState) (msg c : String) (rk : Option String)
    (l₁ l₂ : List SendEnv) :
    runSends MAX st msg c rk (l₁ ++ l₂) = runSends MAX (runSends MAX st msg c rk l₁) msg c rk l₂ := by
  unfold runSends
  rw [List.foldl_append]

theorem runSends_singleton (MAX : Nat) (st : BotState) (msg c : String) (rk : Option String)
    (e : SendEnv) : runSends MAX st msg c rk [e] = send_message MAX st msg c rk e := rfl

/-- While the accumulated failures stay strictly below the threshold, the
channel is not blacklisted and its count is exactly the number of failures. -/
theorem runSends_failing_below (MAX : Nat) (msg c : String) (rk : Option String) :
    ∀ (envs : List SendEnv) (st : BotState), (∀ e ∈ envs, FailingEnv e) →
      c ∉ st.failed_channels → countOf st c + envs.length < MAX →
      c ∉ (runSends MAX st msg c rk envs).failed_channels ∧
        countOf (runSends MAX st msg c rk envs) c = countOf st c + envs.length := by
  intro envs
  induction envs with
  | nil =>
      intro st _ hn _
      exact ⟨hn, by simp [runSends]⟩
  | cons e rest ih =>
      intro st hF hn hlt
      have hfe : FailingEnv e := hF e (List.mem_cons_self _ _)
      have hstep : runSends MAX st msg c rk (e :: rest) =
          runSends MAX (incFail MAX st c) msg c rk rest := by
        unfold runSends
        rw [List.foldl_cons, send_message_failing MAX st msg c rk e hfe hn]
      have hlen : countOf st c + (e :: rest).length = countOf st c + 1 + rest.length := by
        simp
        omega
      have hn' : c ∉ (incFail MAX st c).failed_channels := by
        rw [incFail_failed_mem]
        rintro (hin | ⟨-, hM⟩)
        · exact hn hin
        · have : countOf st c + (e :: rest).length ≥ MAX := by simp; omega
          omega
      have hc' : countOf (incFail MAX st c) c = countOf st c + 1 :=
        countOf_incFail_self MAX st c
      have hrec := ih (incFail MAX st c) (fun e' he' => hF e' (List.mem_cons_of_mem _ he'))
        hn' (by rw [hc']; rw [hlen] at hlt; exact hlt)
      rw [hstep]
      refine ⟨hrec.1, ?_⟩
      rw [hrec.2, hc', hlen]

/-- C4: a channel failing exactly `MAX_RETRIES` consecutive times is
blacklisted; one failing `MAX_RETRIES − 1` times and then succeeding is never
blacklisted (at any point of the run) and its failure count is reset to 0 by
the success. -/
theorem c4_retry_blacklist_policy (MAX : Nat) (st : BotState) (msg c : String)
    (rkey : Option String) (hM : 1 ≤ MAX) (h0 : c ∉ st.failed_channels)
    (hc : countOf st c = 0) :
    (∀ envs : List SendEnv, envs.length = MAX → (∀ e ∈ envs, FailingEnv e) →
        c ∈ (runSends MAX st msg c rkey envs).failed_channels) ∧
    (∀ (envs : List SendEnv) (eS : SendEnv), envs.length = MAX - 1 →
        (∀ e ∈ envs, FailingEnv e) → SuccessEnv eS →
        (∀ n, c ∉ (runSends MAX st msg c rkey ((envs ++ [eS]).take n)).failed_channels) ∧
        countOf (runSends MAX st msg c rkey (envs ++ [eS])) c = 0) := by
  constructor
  · intro envs hlen hF
    have hne : envs ≠ [] := by
      intro hnil
      rw [hnil] at hlen
      simp at hlen
      omega
    have hsplit := List.dropLast_append_getLast hne
    set eL := envs.getLast hne with heL
    have hdl : envs.dropLast.length = MAX - 1 := by simp [hlen]
    have hFdl : ∀ e ∈ envs.dropLast, FailingEnv e := by
      intro e he
      apply hF
      rw [← hsplit]
      exact List.mem_append_left _ he
    have hbelow := runSends_failing_below MAX msg c rkey envs.dropLast st hFdl h0
      (by rw [hc, hdl]; omega)
    have hFL : FailingEnv eL := hF _ (List.getLast_mem hne)
    rw [← hsplit, runSends_append, runSends_singleton]
    rw [send_message_failing MAX _ msg c rkey eL hFL hbelow.1]
    rw [incFail_failed_mem]
    right
    refine ⟨rfl, ?_⟩
    rw [hbelow.2, hc, hdl]
    omega
  · intro envs eS hlen hF hS
    have hfull := runSends_failing_below MAX msg c rkey envs st hF h0
      (by rw [hc, hlen]; omega)
    constructor
    · intro n
      rcases le_or_lt n envs.length with hn | hn
      · rw [take_append_le hn]
        have hsub : ∀ e ∈ envs.take n, FailingEnv e :=
          fun e he => hF e (List.take_subset n envs he)
        have := runSends_failing_below MAX msg c rkey (envs.take n) st hsub h0
          (by rw [hc]; simp; omega)
        exact this.1
      · rw [List.take_of_length_le (by simp; omega), runSends_append, runSends_singleton]
        rw [(send_message_success_state MAX _ msg c rkey eS hS hfull.1).1]
        exact hfull.1
    · rw [runSends_append, runSends_singleton]
      exact countOf_success_self MAX _ msg c rkey eS hS hfull.1

/-- Witness for C4 at `MAX_RETRIES = 3` from the initial state: three failing
calls blacklist channel "123"; two failing calls followed by a success never
blacklist it and leave its count at 0. -/
theorem c4_retry_blacklist_policy_witness :
    "123" ∈ (runSends 3 initBotState "hi" "123" none
        [failEnvNF, failEnvOE, failEnvSend]).failed_channels ∧
    ((∀ n, "123" ∉ (runSends 3 initBotState "hi" "123" none
        (([failEnvNF, failEnvOE] ++ [succEnv]).take n)).failed_channels) ∧
      countOf (runSends 3 initBotState "hi" "123" none
        ([failEnvNF, failEnvOE] ++ [succEnv])) "123" = 0) := by
  have h := c4_retry_blacklist_policy 3 initBotState "hi" "123" none (by decide)
    (by simp [initBotState]) (by rfl)
  exact ⟨h.1 _ (by rfl) (by decide), h.2 _ _ (by rfl) (by decide) (by decide)⟩

/-- C5: every `send_message` execution preserves the blacklist invariant: a
channel is blacklisted iff its failure count reached `MAX_RETRIES` or a
Forbidden (permission) error was received for it; the Forbidden path
blacklists immediately without touching the failure count. -/
theorem c5_blacklist_invariant_preserved (MAX : Nat) (st : BotState) (msg cid : String)
    (rkey : Option String) (env : SendEnv) (hM : 1 ≤ MAX) (h : FailInv MAX st) :
    FailInv MAX (send_message MAX st msg cid rkey env) := by
  by_cases hin : cid ∈ st.failed_channels
  · rw [send_message_skip MAX st msg cid rkey env hin]
    exact h
  cases heff : effectiveFetch env with
  | notFound =>
      rw [send_message_failing MAX st msg cid rkey env (Or.inl heff) hin]
      intro c
      rw [incFail_failed_mem, incFail_forbidden_received]
      by_cases hca : c = cid
      · subst hca
        have h1 : ¬ MAX ≤ countOf st c := fun hle => hin ((h c).mpr (Or.inl hle))
        have h2 : c ∉ st.forbidden_received := fun hf => hin ((h c).mpr (Or.inr hf))
        rw [countOf_incFail_self]
        constructor
        · rintro (hmem | ⟨-, hM'⟩)
          · exact absurd hmem hin
          · exact Or.inl hM'
        · rintro (hM' | hf)
          · exact Or.inr ⟨rfl, hM'⟩
          · exact absurd hf h2
      · rw [countOf_incFail_ne MAX st cid c hca]
        constructor
        · rintro (hmem | ⟨hca', -⟩)
          · exact (h c).mp hmem
          · exact absurd hca' hca
        · intro hr
          exact Or.inl ((h c).mpr hr)
  | otherError =>
      rw [send_message_failing MAX st msg cid rkey env (Or.inr (Or.inl heff)) hin]
      intro c
      rw [incFail_failed_mem, incFail_forbidden_received]
      by_cases hca : c = cid
      · subst hca
        have h1 : ¬ MAX ≤ countOf st c := fun hle => hin ((h c).mpr (Or.inl hle))
        have h2 : c ∉ st.forbidden_received := fun hf => hin ((h c).mpr (Or.inr hf))
        rw [countOf_incFail_self]
        constructor
        · rintro (hmem | ⟨-, hM'⟩)
          · exact absurd hmem hin
          · exact Or.inl hM'
        · rintro (hM' | hf)
          · exact Or.inr ⟨rfl, hM'⟩
          · exact absurd hf h2
      · rw [countOf_incFail_ne MAX st cid c hca]
        constructor
        · rintro (hmem | ⟨hca', -⟩)
          · exact (h c).mp hmem
          · exact absurd hca' hca
        · intro hr
          exact Or.inl ((h c).mpr hr)
  | forbidden =>
      have hparts := send_message_forbidden MAX st msg cid rkey env heff hin
      intro c
      have hcnt : countOf (send_message MAX st msg cid rkey env) c = countOf st c := by
        unfold countOf
        rw [hparts.2.2]
      rw [hparts.1, hparts.2.1, hcnt]
      simp only [mem_setAdd]
      by_cases hca : c = cid
      · subst hca
        constructor
        · intro
          exact Or.inr (Or.inl rfl)
        · intro
          exact Or.inl rfl
      · constructor
        · rintro (hca' | hmem)
          · exact absurd hca' hca
          · rcases (h c).mp hmem with hr | hr
            · exact Or.inl hr
            · exact Or.inr (Or.inr hr)
        · rintro (hr | hca' | hr)
          · exact Or.inr ((h c).mpr (Or.inl hr))
          · exact absurd hca' hca
          · exact Or.inr ((h c).mpr (Or.inr hr))
  | found =>
      cases hsend : env.send with
      | err =>
          rw [send_message_failing MAX st msg cid rkey env (Or.inr (Or.inr ⟨heff, hsend⟩)) hin]
          intro c
          rw [incFail_failed_mem, incFail_forbidden_received]
          by_cases hca : c = cid
          · subst hca
            have h1 : ¬ MAX ≤ countOf st c := fun hle => hin ((h c).mpr (Or.inl hle))
            have h2 : c ∉ st.forbidden_received := fun hf => hin ((h c).mpr (Or.inr hf))
            rw [countOf_incFail_self]
            constructor
            · rintro (hmem | ⟨-, hM'⟩)
              · exact absurd hmem hin
              · exact Or.inl hM'
            · rintro (hM' | hf)
              · exact Or.inr ⟨rfl, hM'⟩
              · exact absurd hf h2
          · rw [countOf_incFail_ne MAX st cid c hca]
            constructor
            · rintro (hmem | ⟨hca', -⟩)
              · exact (h c).mp hmem
              · exact absurd hca' hca
            · intro hr
              exact Or.inl ((h c).mpr hr)
      | ok mid =>
          have hS : SuccessEnv env := ⟨heff, by rw [hsend]; rfl⟩
          have hparts := send_message_success_state MAX st msg cid rkey env hS hin
          intro c
          rw [hparts.1, hparts.2.1]
          by_cases hca : c = cid
          · subst hca
            rw [countOf_success_self MAX st msg c rkey env hS hin]
            constructor
            · intro hmem
              exact absurd hmem hin
            · rintro (hM' | hf)
              · omega
              · exact absurd ((h c).mpr (Or.inr hf)) hin
          · rw [countOf_success_ne MAX st msg cid c rkey env hS hin hca]
            exact h c

/-- Witness for C5: the invariant holds after a successful tracked send from
the initial (empty) state with threshold 3. -/
theorem c5_blacklist_invariant_preserved_witness :
    FailInv 3 (send_message 3 initBotState "hello" "123" (some "Acme_Intern")
      ⟨true, ChFetchRes.found, ChSendRes.ok 7, collideTime⟩) :=
  c5_blacklist_invariant_preserved 3 initBotState "hello" "123" (some "Acme_Intern")
    ⟨true, ChFetchRes.found, ChSendRes.ok 7, collideTime⟩ (by decide)
    (by intro c; simp [initBotState, countOf, dictGet])

/-! ### C1 -/

/-- C1 counterexample: in the concrete cycle that detects one new role, the
commit event precedes the dispatch (the trace is
`[commit, sendMsg ...]`), so the snapshot is *not* overwritten only after
the dispatches complete. -/
theorem c1_commit_waits_counterexample :
    ¬ commitAfterAllDispatches
        (traceOf (check_for_new_roles_trace [] [sampleRole] [] ["123"] "October, 12")) := by
  intro h
  unfold commitAfterAllDispatches at h
  have h01 := h 0 1 rfl rfl
  omega

/-- C1 (amended): the committed snapshot is overwritten at the start of the
observable trace, before any dispatch runs — the cycle schedules the fan-out
and commits without blocking on it; every dispatch event comes strictly
after the commit. -/
theorem c1_commit_precedes_dispatches (old_data new_data : List Role) (T : Tracking)
    (chs : List String) (today : String) (tr : List Ev)
    (h : check_for_new_roles_trace old_data new_data T chs today = Except.ok tr) :
    tr[0]? = some (Ev.commit new_data) ∧
      ∀ j, (tr[j]?).any isDispatchEv = true → 0 < j := by
  unfold check_for_new_roles_trace at h
  rcases htasks : check_for_new_roles_tasks old_data new_data T chs today with e | tasks
  · rw [htasks] at h
    exact absurd h (by simp)
  · rw [htasks] at h
    have htr : tr = Ev.commit new_data :: runLoop tasks := by
      cases h
      rfl
    subst htr
    refine ⟨by simp, ?_⟩
    intro j hj
    cases j with
    | zero => simp [Option.any, isDispatchEv] at hj
    | succ j => omega

/-- Witness for C1 at the concrete one-new-role cycle. -/
theorem c1_commit_precedes_dispatches_witness :
    (traceOf (check_for_new_roles_trace [] [sampleRole] [] ["123"] "October, 12"))[0]? =
        some (Ev.commit [sampleRole]) ∧
      ∀ j, ((traceOf (check_for_new_roles_trace [] [sampleRole] [] ["123"]
          "October, 12"))[j]?).any isDispatchEv = true → 0 < j :=
  c1_commit_precedes_dispatches [] [sampleRole] [] ["123"] "October, 12" _ (by rfl)

/-! ### C7 -/

/-- C7 counterexample: in the concrete cycle deactivating the tracked Acme
role (trace `[commit, edit, send, consume]` under the FIFO event loop), the
fresh deactivation broadcast is sent *before* the tracking entry is
consumed, so consume-and-edit does not happen strictly before the closure
broadcast. -/
theorem c7_consume_before_broadcast_counterexample :
    ¬ consumeEditsBeforeBroadcast
        (traceOf (check_for_new_roles_trace [acmeActive] [acmeInactive] acmeTracking ["123"]
          "October, 12"))
        (role_key acmeInactive) (format_deactivation_message acmeInactive "October, 12") := by
  intro h
  unfold consumeEditsBeforeBroadcast at h
  have h32 := h 3 2 rfl rfl
  omega

/-- Helper: in a flatMap of two-element blocks, each source element
contributes its two tasks at consecutive indices. -/
theorem flatMap_pair_get {α : Type} (f g : α → CycTask) (l : List α) (r : α) (hr : r ∈ l) :
    ∃ i, (l.flatMap (fun x => [f x, g x]))[i]? = some (f r) ∧
      (l.flatMap (fun x => [f x, g x]))[i + 1]? = some (g r) := by
  induction l with
  | nil => cases hr
  | cons x rest ih =>
      rcases List.mem_cons.mp hr with rfl | hr'
      · exact ⟨0, by simp, by simp⟩
      · obtain ⟨i, h1, h2⟩ := ih hr'
        refine ⟨i + 2, ?_, ?_⟩
        · rw [List.flatMap_cons]
          simp only [List.cons_append, List.nil_append, List.getElem?_cons_succ]
          exact h1
        · rw [List.flatMap_cons]
          simp only [List.cons_append, List.nil_append, List.getElem?_cons_succ]
          exact h2

/-- C7 (amended): for each deactivated record the update task (consume and
edit) is created immediately before its deactivation-broadcast task — the
scheduling order matches the claim — but the cycle does not wait for the
update to finish: the broadcast may run before the edits and the consume
complete (see the counterexample trace). -/
theorem c7_update_task_precedes_broadcast_task (old_data new_data : List Role) (T : Tracking)
    (chs : List String) (today : String) (tasks : List CycTask)
    (h : check_for_new_roles_tasks old_data new_data T chs today = Except.ok tasks)
    (r : Role) (hr : r ∈ (check_for_new_roles_diff old_data new_data).2) :
    ∃ i, tasks[i]? = some (CycTask.plain (update_expired_segs r T today)) ∧
      tasks[i + 1]? = some (CycTask.gatherSends chs (format_deactivation_message r today) none) := by
  unfold check_for_new_roles_tasks at h
  rcases hnts : formatNewRoleTasks (check_for_new_roles_diff old_data new_data).1 chs today
    with e | nts
  · rw [hnts] at h
    exact absurd h (by simp)
  · rw [hnts] at h
    have htasks : tasks = nts ++ deactTasks (check_for_new_roles_diff old_data new_data).2
        T chs today := by
      cases h
      rfl
    subst htasks
    obtain ⟨i, h1, h2⟩ := flatMap_pair_get
      (fun r => CycTask.plain (update_expired_segs r T today))
      (fun r => CycTask.gatherSends chs (format_deactivation_message r today) none)
      (check_for_new_roles_diff old_data new_data).2 r hr
    refine ⟨nts.length + i, ?_, ?_⟩
    · rw [List.getElem?_append_right (by omega)]
      have : nts.length + i - nts.length = i := by omega
      rw [this]
      exact h1
    · rw [List.getElem?_append_right (by omega)]
      have : nts.length + i + 1 - nts.length = i + 1 := by omega
      rw [this]
      exact h2

/-- Witness for C7 at the concrete deactivation cycle. -/
theorem c7_update_task_precedes_broadcast_task_witness :
    ∃ i, (tasksOf (check_for_new_roles_tasks [acmeActive] [acmeInactive] acmeTracking ["123"]
        "October, 12"))[i]? =
          some (CycTask.plain (update_expired_segs acmeInactive acmeTracking "October, 12")) ∧
      (tasksOf (check_for_new_roles_tasks [acmeActive] [acmeInactive] acmeTracking ["123"]
        "October, 12"))[i + 1]? =
          some (CycTask.gatherSends ["123"]
            (format_deactivation_message acmeInactive "October, 12") none) :=
  c7_update_task_precedes_broadcast_task [acmeActive] [acmeInactive] acmeTracking ["123"]
    "October, 12" _ (by rfl) acmeInactive (by decide)

/-! ### C2 -/

/-- C2 counterexample: a failing fetch crashes the orchestrator loop — the
`while True` loop in `on_ready` terminates with the propagated exception
instead of logging and retrying on the next tick. -/
theorem c2_loop_crash_counterexample : ¬ fetchFailureIsSurvived := by
  intro h
  exact absurd (h none "boom" [] [] "d") (by decide)

/-- C2 (amended): a failure obtaining the dataset aborts the cycle with no
commit — the exception is raised before `previous_data.json` is written, so
the durable snapshot is unchanged — but the exception propagates through
`schedule.run_pending()` and terminates the orchestrator loop (carrying the
unchanged snapshot `prev`); the remaining ticks are never processed. -/
theorem c2_fetch_failure_aborts_and_crashes (prev : Option (List Role)) (e : String)
    (rest : List FetchOutcome) (T : Tracking) (chs : List String) (today : String) :
    check_for_new_roles_cycle prev (FetchOutcome.fail e) T chs today = Except.error e ∧
    on_ready_loop T chs today prev (FetchOutcome.fail e :: rest) = Except.error (e, prev) :=
  ⟨rfl, rfl⟩

/-! ### Remaining witnesses -/

/-- Witness for C3 on the concrete pair P = [acmeActive],
C = [sampleRole, acmeInactive]: the New record and the Deactivated record
each satisfy the classification conditions. -/
theorem c3_diff_classification_witness :
    (sampleRole ∈ [sampleRole, acmeInactive] ∧
      (∀ p ∈ [acmeActive],
        ¬(p.company_name = sampleRole.company_name ∧ p.title = sampleRole.title)) ∧
      sampleRole.active = true ∧ sampleRole.is_visible = true) ∧
    (acmeInactive ∈ [sampleRole, acmeInactive] ∧
      (∃ p ∈ [acmeActive], p.company_name = acmeInactive.company_name ∧
        p.title = acmeInactive.title ∧ p.active = true) ∧
      acmeInactive.active = false) :=
  ⟨(c3_diff_classification [acmeActive] [sampleRole, acmeInactive]).1 sampleRole (by decide),
   (c3_diff_classification [acmeActive] [sampleRole, acmeInactive]).2 acmeInactive (by decide)⟩

/-- Witness for C9 on a concrete two-record snapshot with distinct keys. -/
theorem c9_diff_self_empty_witness :
    check_for_new_roles_diff [sampleRole, acmeActive] [sampleRole, acmeActive] = ([], []) :=
  c9_diff_self_empty [sampleRole, acmeActive] (by decide)

/-- Witness for C6 on a concrete one-entry tracking store. -/
theorem c6_tracking_roundtrip_witness :
    load_message_tracking (save_message_tracking acmeTracking) = acmeTracking :=
  c6_tracking_roundtrip acmeTracking (by decide)

end MainBot
